import Mathlib

/-!
A shallow embedding of the rules / resolution engine of The Arrow Game
(src/main.js).  Arrow values, the board, the action classifier
(classifyAction), the anti-wraparound edge check (resolveEdgeError), the
move resolver (handleAction), the gravity engine (applyGravitySteps /
applyActionGravity, modelled by their net effect on the board once every
emitted animation step has been applied), and the end-game scan
(endGameCheck) are translated from the JavaScript source.  DOM handles,
pixels and animation timing are dropped; cell statuses become integers
(0 = empty) and the board becomes a function from linear cell id to value.
-/

namespace ArrowGame

/-- A board maps a linear cell id (row*5+col, ids 0..24 meaningful) to the
integer arrow value stored there, 0 meaning empty (dataset.status). -/
def Board := ℤ → ℤ

/-- JavaScript Math.abs on integers. -/
def absJ (d : ℤ) : ℤ := if d < 0 then -d else d

/-- The eight one-directional arrow values (basic_arr in main.js). -/
def basic_arr : List ℤ := [1, 5, 8, 3, 10, 4, 2, 7]

/-- The four two-directional arrow values (mid_arr in main.js). -/
def mid_arr : List ℤ := [14, 9, 6, 11]

/-- The three maximal arrow values (max_arr in main.js). -/
def max_arr : List ℤ := [17, 23, 40]

/-- Every legal arrow value (arrows in main.js). -/
def arrows : List ℤ := [1, 5, 8, 3, 10, 4, 2, 7, 14, 9, 6, 11, 17, 23, 40]

/-- First component of the action_triples entry of a basic arrow
(main.js line 1150): its natural signed action distance. -/
def basicDist (a : ℤ) : ℤ :=
  if a = 1 then 5 else if a = 5 then -5 else if a = 8 then 1 else if a = 3 then -1
  else if a = 2 then 4 else if a = 7 then -4 else if a = 10 then 6 else if a = 4 then -6
  else 0

/-- Second component of the action_triples entry of a basic arrow
(main.js line 1150): its inverse arrow value. -/
def basicInv (a : ℤ) : ℤ :=
  if a = 1 then 5 else if a = 5 then 1 else if a = 8 then 3 else if a = 3 then 8
  else if a = 2 then 7 else if a = 7 then 2 else if a = 10 then 4 else if a = 4 then 10
  else 0

/-- First valid combine distance of a two-directional arrow, from its
action_triples entry (main.js line 1151). -/
def midDistA (a : ℤ) : ℤ :=
  if a = 11 then 1 else if a = 6 then 1 else if a = 9 then 4 else if a = 14 then 4 else 0

/-- Second valid combine distance of a two-directional arrow, from its
action_triples entry (main.js line 1151). -/
def midDistB (a : ℤ) : ℤ :=
  if a = 11 then 5 else if a = 6 then 5 else if a = 9 then 6 else if a = 14 then 6 else 0

/-- Cancel distance of a two-directional arrow, from its action_triples
entry (main.js line 1151). -/
def midCancel (a : ℤ) : ℤ :=
  if a = 11 then 1 else if a = 6 then 5 else if a = 9 then 4 else if a = 14 then 6 else 0

/-- Inverse of a two-directional arrow, from its action_triples entry
(main.js line 1151). -/
def midInv (a : ℤ) : ℤ :=
  if a = 11 then 6 else if a = 6 then 11 else if a = 9 then 14 else if a = 14 then 9 else 0

/-- The result of classifyAction: one of the three action symbols, or the
sentinel -1 (here Action.invalid) when no action applies. -/
inductive Action where
  | merge
  | combine
  | cancel
  | invalid
deriving DecidableEq

/-- classifyAction (main.js lines 1184-1205): given the source arrow value,
the destination arrow value and the signed linear distance between their
cells, decide which action (if any) applies.  The lookups of the
action_triples table are the component functions basicDist, basicInv,
midDistA, midDistB, midCancel and midInv above. -/
def classifyAction (arrow1 arrow2 dist : ℤ) : Action :=
  if arrow1 ∈ basic_arr then
    if arrow1 = arrow2 ∧ absJ dist = absJ (basicDist arrow1) then .merge
    else if arrow2 = basicInv arrow1 ∧ dist = basicDist arrow1 then .combine
    else if arrow2 = basicInv arrow1 ∧ dist = -(basicDist arrow1) then .cancel
    else .invalid
  else if arrow1 ∈ mid_arr then
    if arrow1 = arrow2 ∧ absJ dist = midCancel arrow1 then .cancel
    else if arrow2 = midInv arrow1 ∧ (absJ dist = midDistA arrow1 ∨ absJ dist = midDistB arrow1) then .combine
    else .invalid
  else if absJ dist = 1 ∨ absJ dist = 4 ∨ absJ dist = 5 ∨ absJ dist = 6 then
    if arrow1 = arrow2 ∧ arrow1 = 40 then .cancel
    else if (arrow1 = 17 ∧ arrow2 = 23) ∨ (arrow1 = 23 ∧ arrow2 = 17) then .combine
    else .invalid
  else .invalid

/-- grid_id (main.js line 70): linear cell id of grid cell (i, j). -/
def gridId (i j : ℤ) : ℤ := i * 5 + j

/-- grid_indices (main.js line 71): (row, column) of a linear cell id. -/
def gridIndices (n : ℤ) : ℤ × ℤ := ((n - n % 5) / 5, n % 5)

/-- resolveEdgeError (main.js lines 1236-1263): rejects actions whose
linear distance wraps across a row boundary of the 5-wide grid.  src and
dest are (row, column) pairs; returns true when no edge error is
detected. -/
def resolveEdgeError (src dest : ℤ × ℤ) (dist : ℤ) : Bool :=
  if absJ dist = 5 then true
  else if absJ dist = 1 then decide (src.1 = dest.1)
  else if absJ dist = 4 ∨ absJ dist = 6 then decide (absJ (src.1 - dest.1) = 1)
  else true

/-- Pointwise update of a board cell (the net effect of writing
dataset.status of one cell). -/
def setCell (b : Board) (n v : ℤ) : Board := fun m => if m = n then v else b m

/-- cell_in_gravity_range (main.js line 72). -/
def cell_in_gravity_range (i j : ℤ) : Prop :=
  0 ≤ i ∧ i ≤ 4 ∧ 0 ≤ j ∧ j ≤ 4

instance (i j : ℤ) : Decidable (cell_in_gravity_range i j) := by
  unfold cell_in_gravity_range; infer_instance

/-- can_be_dropped_to (main.js line 73): the cell exists and is empty. -/
def can_be_dropped_to (b : Board) (i j : ℤ) : Prop :=
  cell_in_gravity_range i j ∧ b (gridId i j) = 0

instance (b : Board) (i j : ℤ) : Decidable (can_be_dropped_to b i j) := by
  unfold can_be_dropped_to; infer_instance

/-- applyGravitySteps (main.js lines 356-396), by its net effect on the
board once its chained animations have completed: if cell (i,j) exists and
the cell below it is empty, its content drops one row at a time (the code
performs at most four chained steps, checking rows i+2, i+3, i+4 in turn)
until the cell below is occupied or absent; the vacated cell becomes
empty. -/
def applyGravitySteps (b : Board) (i j : ℤ) : Board :=
  if ¬ cell_in_gravity_range i j then b
  else if ¬ can_be_dropped_to b (i + 1) j then b
  else
    let content := b (gridId i j)
    let final : ℤ :=
      if can_be_dropped_to b (i + 2) j then
        if can_be_dropped_to b (i + 3) j then
          if can_be_dropped_to b (i + 4) j then i + 4 else i + 3
        else i + 2
      else i + 1
    setCell (setCell b (gridId i j) 0) (gridId final j) content

/-- One unfolding of the applyActionGravity recursion (main.js lines
404-425): reject rows outside 0..3 and columns outside 0..4, stop at an
empty cell, otherwise apply gravity to (i,j) and recurse on the cell
above.  The fuel argument only bounds the recursion depth; five units are
always enough because the guard stops the recursion after at most five
calls from any in-range starting row. -/
def applyActionGravityAux : ℕ → Board → ℤ → ℤ → Board
  | 0, b, _, _ => b
  | fuel + 1, b, i, j =>
    if i < 0 ∨ j < 0 ∨ 4 ≤ i ∨ 4 < j then b
    else if b (gridId i j) = 0 then b
    else applyActionGravityAux fuel (applyGravitySteps b i j) (i - 1) j

/-- applyActionGravity (main.js lines 404-425): settle, bottom first, the
cells of column j from row i upward after an action vacated the cell
below row i. -/
def applyActionGravity (b : Board) (i j : ℤ) : Board :=
  applyActionGravityAux 5 b i j

/-- A column is settled when no cell of it holds a non-empty value with
an empty cell directly beneath it. -/
def settledCol (b : Board) (j : ℤ) : Prop :=
  ∀ i : ℤ, 0 ≤ i → i < 4 → ¬(b (gridId i j) ≠ 0 ∧ b (gridId (i + 1) j) = 0)

/-- A five-row column (column 0) holding arrows in rows 0, 2 and 4 with
rows 1 and 3 empty: the value 7 floats above an empty cell both above and
below the gravity starting row. -/
def cexColumn : Board := fun n => if n = 0 ∨ n = 10 ∨ n = 20 then 7 else 0

/-- The mutable game fields handleAction touches (main.js lines 52-57):
the grid, the cumulative score, the remaining swap count, the number of
placed arrows, and the columns with a gravity animation in flight. -/
structure GameState where
  board : Board
  score : ℤ
  spins_remaining : ℤ
  arrows_placed : ℤ
  animating_columns : List ℤ

/-- Tier score u of a source arrow value (main.js line 627): basic 2,
two-directional 4, the self-cancelling maximal arrow 9, any other value
6. -/
def uScore (src : ℤ) : ℕ :=
  if src ∈ basic_arr then 2
  else if src ∈ mid_arr then 4
  else if src = 40 then 9
  else 6

/-- Score increment of the switch in handleAction (main.js lines 629-665):
2 for Merge, 2^(u+1) for Combine, 2^u + 2 for Cancel, nothing
otherwise. -/
def scoreDelta (src : ℤ) : Action → ℤ
  | .merge => 2
  | .combine => 2 ^ (uScore src + 1)
  | .cancel => 2 ^ uScore src + 2
  | .invalid => 0

/-- New (source, destination) cell contents of the switch in handleAction
(main.js lines 629-665); none when the action is invalid (default
branch). -/
def actionNewContents (src dest : ℤ) : Action → Option (ℤ × ℤ)
  | .merge => some (0, src)
  | .combine => some (0, (src + dest) % 80)
  | .cancel => some (0, 0)
  | .invalid => none

/-- Change of arrows_placed in the switch of handleAction. -/
def placedDelta : Action → ℤ
  | .merge => -1
  | .combine => -1
  | .cancel => -2
  | .invalid => 0

/-- Bonus swap grant of the Cancel branch (main.js lines 650-652): one
extra swap when the two cancelled values sum to 80. -/
def cancelSpinBonus (src dest spins : ℤ) (act : Action) : ℤ :=
  if act = .cancel ∧ src + dest = 80 then spins + 1 else spins

/-- Board mutation of handleAction (main.js lines 669-670): write the new
source content, then the new destination content. -/
def applyActionBoard (b : Board) (srcId destId ns nd : ℤ) : Board :=
  setCell (setCell b srcId ns) destId nd

/-- The applyActionGravity invocations handleAction makes (main.js lines
679-693), as (row, column) starting points in order: the two vertical
basic-pair special cases schedule a single pass, every other action
schedules a pass above the source cell if it was cleared and then one
above the destination cell if it was cleared. -/
def gravityCalls (src dest dist oi oj ci cj ns nd : ℤ) : List (ℤ × ℤ) :=
  if src = 1 ∧ dest = 5 ∧ dist = -5 then [(ci - 1, cj)]
  else if src = 5 ∧ dest = 1 ∧ dist = 5 then [(oi - 1, oj)]
  else (if ns = 0 then [(oi - 1, oj)] else []) ++
       (if nd = 0 then [(ci - 1, cj)] else [])

/-- Run the scheduled gravity passes in order. -/
def gravityPhase (b : Board) (calls : List (ℤ × ℤ)) : Board :=
  calls.foldl (fun bb c => applyActionGravity bb c.1 c.2) b

/-- handleAction (main.js lines 605-698): resolve the drag of the arrow of
cell origin to pixel position (x, y).  Outside the grid, on a column with
an in-flight gravity animation, on an edge error, or when classifyAction
yields no action, the state is returned unchanged (the -1 returns of the
source); otherwise score, swap count, arrow count and board are updated
and the scheduled gravity passes are applied.  The updateGridCell guard
on animating columns always passes here because the source and
destination columns were already checked. -/
def handleAction (s : GameState) (origin x y : ℤ) : GameState :=
  if ¬ (1 ≤ x ∧ x ≤ 299 ∧ 1 ≤ y ∧ y ≤ 299) then s
  else if x / 60 ∈ s.animating_columns ∨ origin % 5 ∈ s.animating_columns then s
  else if resolveEdgeError (gridIndices origin) (y / 60, x / 60)
      (gridId (y / 60) (x / 60) - origin) = false then s
  else
    match actionNewContents (s.board origin) (s.board (gridId (y / 60) (x / 60)))
        (classifyAction (s.board origin) (s.board (gridId (y / 60) (x / 60)))
          (gridId (y / 60) (x / 60) - origin)) with
    | none => s
    | some (ns, nd) =>
      { board := gravityPhase
          (applyActionBoard s.board (gridId (gridIndices origin).1 (gridIndices origin).2)
            (gridId (y / 60) (x / 60)) ns nd)
          (gravityCalls (s.board origin) (s.board (gridId (y / 60) (x / 60)))
            (gridId (y / 60) (x / 60) - origin)
            (gridIndices origin).1 (gridIndices origin).2 (y / 60) (x / 60) ns nd)
        score := s.score + scoreDelta (s.board origin)
          (classifyAction (s.board origin) (s.board (gridId (y / 60) (x / 60)))
            (gridId (y / 60) (x / 60) - origin))
        spins_remaining := cancelSpinBonus (s.board origin)
          (s.board (gridId (y / 60) (x / 60))) s.spins_remaining
          (classifyAction (s.board origin) (s.board (gridId (y / 60) (x / 60)))
            (gridId (y / 60) (x / 60) - origin))
        arrows_placed := s.arrows_placed + placedDelta
          (classifyAction (s.board origin) (s.board (gridId (y / 60) (x / 60)))
            (gridId (y / 60) (x / 60) - origin))
        animating_columns := s.animating_columns }

/-- action_dists (main.js line 1270): the eight actionable signed cell
offsets. -/
def action_dists : List ℤ := [-6, -5, -4, -1, 1, 4, 5, 6]

/-- getNeighbors (main.js lines 1277-1278). -/
def getNeighbors (cell_id : ℤ) : List ℤ := action_dists.map (fun n => cell_id + n)

/-- canCombine (main.js lines 1285-1293): both ids on the board, no edge
error, and classifyAction finds an action. -/
def canCombine (src src_content dest dest_content dist : ℤ) : Bool :=
  decide (0 ≤ src ∧ 0 ≤ dest ∧ src ≤ 24 ∧ dest ≤ 24) &&
  resolveEdgeError (gridIndices src) (gridIndices dest) dist &&
  decide (classifyAction src_content dest_content dist ≠ .invalid)

/-- endGameCheck (main.js lines 1307-1330): scan every cell id and each of
its eight neighbor offsets, returning false at the first actionable pair
(List.any stops at the first witness, as the early return in the source
does); when the whole scan finds nothing the function fires the
end-of-game transition (endGameMenu) and returns true. -/
def endGameCheck (b : Board) : Bool :=
  ! ((List.range 25).any fun i =>
      (getNeighbors (i : ℤ)).any fun n =>
        decide (0 ≤ n ∧ n < 25) && canCombine (i : ℤ) (b (i : ℤ)) n (b n) ((i : ℤ) - n))

/-- Membership in basic_arr as a plain disjunction. -/
lemma mem_basic_iff (x : ℤ) :
    x ∈ basic_arr ↔ x = 1 ∨ x = 5 ∨ x = 8 ∨ x = 3 ∨ x = 10 ∨ x = 4 ∨ x = 2 ∨ x = 7 := by
  simp [basic_arr]

/-- Membership in mid_arr as a plain disjunction. -/
lemma mem_mid_iff (x : ℤ) : x ∈ mid_arr ↔ x = 14 ∨ x = 9 ∨ x = 6 ∨ x = 11 := by
  simp [mid_arr]

/-- Membership in arrows as a plain disjunction. -/
lemma mem_arrows_iff (x : ℤ) :
    x ∈ arrows ↔ x = 1 ∨ x = 5 ∨ x = 8 ∨ x = 3 ∨ x = 10 ∨ x = 4 ∨ x = 2 ∨ x = 7 ∨
      x = 14 ∨ x = 9 ∨ x = 6 ∨ x = 11 ∨ x = 17 ∨ x = 23 ∨ x = 40 := by
  simp [arrows]

/-- Case enumeration of a legal arrow value. -/
lemma arrow_val_cases (x : ℤ) (hx : x ∈ arrows) :
    x = 1 ∨ x = 5 ∨ x = 8 ∨ x = 3 ∨ x = 10 ∨ x = 4 ∨ x = 2 ∨ x = 7 ∨
    x = 14 ∨ x = 9 ∨ x = 6 ∨ x = 11 ∨ x = 17 ∨ x = 23 ∨ x = 40 := by
  rw [mem_arrows_iff] at hx; exact hx

/-- Math.abs ignores the sign of its argument. -/
lemma absJ_neg (d : ℤ) : absJ (-d) = absJ d := by
  unfold absJ; split_ifs <;> omega

set_option maxHeartbeats 1600000 in
/-- Case analysis of classifyAction: either no action, or the destination
value is the partner the action_triples table pairs with the source. -/
lemma classify_cases (a b d : ℤ) :
    classifyAction a b d = .invalid ∨
    ((a ∈ basic_arr ∧ (b = a ∨ b = basicInv a)) ∨
     (a ∉ basic_arr ∧ a ∈ mid_arr ∧ (b = a ∨ b = midInv a)) ∨
     (a ∉ basic_arr ∧ a ∉ mid_arr ∧
       ((a = 40 ∧ b = 40) ∨ (a = 17 ∧ b = 23) ∨ (a = 23 ∧ b = 17)))) := by
  unfold classifyAction
  split_ifs <;>
    first
      | (left; rfl)
      | (right; left; exact ⟨by assumption, by omega⟩)
      | (right; right; left; exact ⟨by assumption, by assumption, by omega⟩)
      | (right; right; right; exact ⟨by assumption, by assumption, by omega⟩)

/-- Whichever branch spoke, classifyAction only reports an action when the
destination value is the partner the action_triples table pairs with the
source value. -/
lemma classify_partners (a b d : ℤ) (h : classifyAction a b d ≠ .invalid) :
    (a ∈ basic_arr ∧ (b = a ∨ b = basicInv a)) ∨
    (a ∉ basic_arr ∧ a ∈ mid_arr ∧ (b = a ∨ b = midInv a)) ∨
    (a ∉ basic_arr ∧ a ∉ mid_arr ∧
      ((a = 40 ∧ b = 40) ∨ (a = 17 ∧ b = 23) ∨ (a = 23 ∧ b = 17))) :=
  (classify_cases a b d).resolve_left h

/-- A source value outside the legal arrow set classifies to no action. -/
lemma classify_left_notArrow (a b d : ℤ) (ha : a ∉ arrows) :
    classifyAction a b d = .invalid := by
  rw [mem_arrows_iff] at ha
  unfold classifyAction
  rw [if_neg (by rw [mem_basic_iff]; omega), if_neg (by rw [mem_mid_iff]; omega)]
  split_ifs <;> first | rfl | omega

/-- A destination value outside the legal arrow set classifies to no
action either: every partner value the table can demand is itself a legal
arrow. -/
lemma classify_right_notArrow (a b d : ℤ) (hb : b ∉ arrows) :
    classifyAction a b d = .invalid := by
  by_contra h
  rcases classify_partners a b d h with ⟨hab, hc⟩ | ⟨_, ham, hc⟩ | ⟨_, _, hc⟩
  · rw [mem_basic_iff] at hab
    rcases hc with rfl | rfl
    · exact hb (by rw [mem_arrows_iff]; omega)
    · refine hb ?_
      rw [mem_arrows_iff]
      unfold basicInv
      split_ifs <;> omega
  · rw [mem_mid_iff] at ham
    rcases hc with rfl | rfl
    · exact hb (by rw [mem_arrows_iff]; omega)
    · refine hb ?_
      rw [mem_arrows_iff]
      unfold midInv
      split_ifs <;> omega
  · exact hb (by rw [mem_arrows_iff]; omega)

set_option maxHeartbeats 12000000 in
/-- classifyAction is symmetric under swapping the two arrow values while
negating the signed distance. -/
lemma classify_swap (a b d : ℤ) : classifyAction a b d = classifyAction b a (-d) := by
  by_cases ha : a ∈ arrows
  · by_cases hb : b ∈ arrows
    · rcases arrow_val_cases a ha with rfl|rfl|rfl|rfl|rfl|rfl|rfl|rfl|rfl|rfl|rfl|rfl|rfl|rfl|rfl <;>
      rcases arrow_val_cases b hb with rfl|rfl|rfl|rfl|rfl|rfl|rfl|rfl|rfl|rfl|rfl|rfl|rfl|rfl|rfl <;>
      (unfold classifyAction;
       norm_num [basicDist, basicInv, midDistA, midDistB, midCancel, midInv,
         basic_arr, mid_arr, absJ]) <;>
      first
        | rfl
        | omega
        | (split_ifs <;> first | rfl | omega)
    · rw [classify_right_notArrow a b d hb, classify_left_notArrow b a (-d) hb]
  · rw [classify_left_notArrow a b d ha, classify_right_notArrow b a (-d) ha]

/-- Whether classifyAction finds an action does not depend on the sign of
the distance (though which action it finds may). -/
lemma classify_invalid_neg (a b d : ℤ) :
    classifyAction a b d = .invalid ↔ classifyAction a b (-d) = .invalid := by
  unfold classifyAction
  simp only [absJ_neg]
  split_ifs <;> first | rfl | omega

/-- Two values joined by a non-invalid classification always share the
same tier score u. -/
lemma classify_u_eq (a b d : ℤ) (h : classifyAction a b d ≠ .invalid) :
    uScore a = uScore b := by
  rcases classify_partners a b d h with ⟨hab, hc⟩ | ⟨hab, ham, hc⟩ | ⟨hab, ham, hc⟩
  · rcases hc with rfl | rfl
    · rfl
    · rw [mem_basic_iff] at hab
      rcases hab with rfl|rfl|rfl|rfl|rfl|rfl|rfl|rfl <;> decide
  · rcases hc with rfl | rfl
    · rfl
    · rw [mem_mid_iff] at ham
      rcases ham with rfl|rfl|rfl|rfl <;> decide
  · rcases hc with ⟨rfl, rfl⟩ | ⟨rfl, rfl⟩ | ⟨rfl, rfl⟩ <;> decide


example : classifyAction 1 5 5 = .combine := by decide
example : classifyAction 1 5 (-5) = .cancel := by decide
example : classifyAction 1 1 (-5) = .merge := by decide
example : classifyAction 5 1 5 = .cancel := by decide
example : classifyAction 11 11 1 = .cancel := by decide
example : classifyAction 11 6 5 = .combine := by decide
example : classifyAction 40 40 1 = .cancel := by decide
example : classifyAction 17 23 (-6) = .combine := by decide
example : classifyAction 0 0 1 = .invalid := by decide
example : resolveEdgeError (gridIndices 4) (gridIndices 10) 6 = false := by decide
example : resolveEdgeError (gridIndices 3) (gridIndices 9) 6 = true := by decide

/-- C1: for every basic arrow value v with natural signed distance
basicDist v and inverse basicInv v from the action_triples table,
classifyAction classifies (v, v) at distance plus or minus basicDist v as
Merge, (v, inverse) at basicDist v as Combine — and handleAction's
Combine branch then writes (v + inverse) mod 80 to the destination cell
and 0 to the source cell — and (v, inverse) at -(basicDist v) as
Cancel. -/
theorem C1_basic_actions (v : ℤ) (hv : v ∈ basic_arr) :
    classifyAction v v (basicDist v) = .merge ∧
    classifyAction v v (-(basicDist v)) = .merge ∧
    classifyAction v (basicInv v) (basicDist v) = .combine ∧
    actionNewContents v (basicInv v) .combine = some (0, (v + basicInv v) % 80) ∧
    (∀ (b : Board) (p q : ℤ), p ≠ q →
      applyActionBoard b p q 0 ((v + basicInv v) % 80) q = (v + basicInv v) % 80 ∧
      applyActionBoard b p q 0 ((v + basicInv v) % 80) p = 0) ∧
    classifyAction v (basicInv v) (-(basicDist v)) = .cancel := by
  have hcells : ∀ (b : Board) (p q nd : ℤ), p ≠ q →
      applyActionBoard b p q 0 nd q = nd ∧ applyActionBoard b p q 0 nd p = 0 := by
    intro b p q nd hpq
    constructor <;> simp [applyActionBoard, setCell, hpq, Ne.symm hpq]
  rw [mem_basic_iff] at hv
  rcases hv with rfl|rfl|rfl|rfl|rfl|rfl|rfl|rfl <;>
    exact ⟨by decide, by decide, by decide, by decide,
      fun b p q hpq => hcells b p q _ hpq, by decide⟩

/-- Witness for C1 at the basic arrow 1 (up). -/
theorem C1_basic_actions_witness :
    classifyAction 1 1 (basicDist 1) = .merge ∧
    classifyAction 1 1 (-(basicDist 1)) = .merge ∧
    classifyAction 1 (basicInv 1) (basicDist 1) = .combine ∧
    actionNewContents 1 (basicInv 1) .combine = some (0, (1 + basicInv 1) % 80) ∧
    (∀ (b : Board) (p q : ℤ), p ≠ q →
      applyActionBoard b p q 0 ((1 + basicInv 1) % 80) q = (1 + basicInv 1) % 80 ∧
      applyActionBoard b p q 0 ((1 + basicInv 1) % 80) p = 0) ∧
    classifyAction 1 (basicInv 1) (-(basicDist 1)) = .cancel :=
  C1_basic_actions 1 (by decide)

/-- C2: resolveEdgeError accepts every pure vertical distance, accepts
distance 1 exactly when the rows agree, accepts distances 4 and 6 exactly
when the rows differ by one, accepts every other distance, and in
particular rejects distance 6 between cells 4 and 10 while accepting it
between cells 3 and 9. -/
theorem C2_resolveEdgeError :
    (∀ (src dest : ℤ × ℤ) (dist : ℤ),
      (absJ dist = 5 → resolveEdgeError src dest dist = true) ∧
      (absJ dist = 1 → (resolveEdgeError src dest dist = true ↔ src.1 = dest.1)) ∧
      ((absJ dist = 4 ∨ absJ dist = 6) →
        (resolveEdgeError src dest dist = true ↔ absJ (src.1 - dest.1) = 1)) ∧
      (absJ dist ≠ 1 ∧ absJ dist ≠ 4 ∧ absJ dist ≠ 5 ∧ absJ dist ≠ 6 →
        resolveEdgeError src dest dist = true)) ∧
    resolveEdgeError (gridIndices 4) (gridIndices 10) 6 = false ∧
    resolveEdgeError (gridIndices 3) (gridIndices 9) 6 = true := by
  refine ⟨?_, by decide, by decide⟩
  intro src dest dist
  refine ⟨?_, ?_, ?_, ?_⟩
  · intro h
    unfold resolveEdgeError
    rw [if_pos h]
  · intro h
    unfold resolveEdgeError
    rw [if_neg (by omega), if_pos h]
    simp
  · intro h
    unfold resolveEdgeError
    rw [if_neg (by omega), if_neg (by omega), if_pos h]
    simp
  · intro h
    unfold resolveEdgeError
    rw [if_neg (by omega), if_neg (by omega), if_neg (by omega)]

/-- Witness for C2 (the universally quantified part instantiated at the
literal cells 4 and 10 with distance 6, rows 0 and 2). -/
theorem C2_resolveEdgeError_witness :
    (absJ 6 = 5 → resolveEdgeError (gridIndices 4) (gridIndices 10) 6 = true) ∧
    (absJ 6 = 1 →
      (resolveEdgeError (gridIndices 4) (gridIndices 10) 6 = true ↔
        (gridIndices 4).1 = (gridIndices 10).1)) ∧
    ((absJ 6 = 4 ∨ absJ 6 = 6) →
      (resolveEdgeError (gridIndices 4) (gridIndices 10) 6 = true ↔
        absJ ((gridIndices 4).1 - (gridIndices 10).1) = 1)) ∧
    (absJ 6 ≠ 1 ∧ absJ 6 ≠ 4 ∧ absJ 6 ≠ 5 ∧ absJ 6 ≠ 6 →
      resolveEdgeError (gridIndices 4) (gridIndices 10) 6 = true) :=
  C2_resolveEdgeError.1 (gridIndices 4) (gridIndices 10) 6

/-- C5: for a two-directional (compound) arrow c, classifyAction yields
Cancel on the pair (c, c) exactly at the table's cancel distance, yields
Combine on (c, inverse) exactly at the table's two combine distances, and
the Combine branch of handleAction uses the same (sum mod 80) result value
and the same exponential scoring rule as the basic case. -/
theorem C5_compound_actions (c : ℤ) (hc : c ∈ mid_arr) (d : ℤ) :
    (classifyAction c c d = .cancel ↔ absJ d = midCancel c) ∧
    (classifyAction c (midInv c) d = .combine ↔
      (absJ d = midDistA c ∨ absJ d = midDistB c)) ∧
    actionNewContents c (midInv c) .combine = some (0, (c + midInv c) % 80) ∧
    scoreDelta c .combine = 2 ^ (uScore c + 1) := by
  rw [mem_mid_iff] at hc
  rcases hc with rfl|rfl|rfl|rfl <;>
    refine ⟨?_, ?_, by decide, by decide⟩ <;>
    (unfold classifyAction
     norm_num [basicDist, basicInv, midDistA, midDistB, midCancel, midInv,
       basic_arr, mid_arr]) <;>
    first
      | (constructor <;> intro h0 <;> first | rfl | omega)
      | tauto

/-- Witness for C5 at the compound arrow 11 with distance 1. -/
theorem C5_compound_actions_witness :
    (classifyAction 11 11 1 = .cancel ↔ absJ 1 = midCancel 11) ∧
    (classifyAction 11 (midInv 11) 1 = .combine ↔
      (absJ 1 = midDistA 11 ∨ absJ 1 = midDistB 11)) ∧
    actionNewContents 11 (midInv 11) .combine = some (0, (11 + midInv 11) % 80) ∧
    scoreDelta 11 .combine = 2 ^ (uScore 11 + 1) :=
  C5_compound_actions 11 (by decide) 1

/-- C6: at an orthogonal or diagonal unit distance the maximal tier
behaves specially: two 40-arrows Cancel, 17 and 23 Combine in either
order; a Cancel clears both cells, and the bonus swap is granted exactly
when the two cancelled values sum to 80 (as 40 + 40 does). -/
theorem C6_maximal_actions (d sp : ℤ)
    (hd : absJ d = 1 ∨ absJ d = 4 ∨ absJ d = 5 ∨ absJ d = 6) :
    classifyAction 40 40 d = .cancel ∧
    classifyAction 17 23 d = .combine ∧
    classifyAction 23 17 d = .combine ∧
    actionNewContents 40 40 .cancel = some (0, 0) ∧
    cancelSpinBonus 40 40 sp .cancel = sp + 1 ∧
    (∀ a c : ℤ, a + c ≠ 80 → cancelSpinBonus a c sp .cancel = sp) := by
  refine ⟨?_, ?_, ?_, by decide, ?_, ?_⟩
  · unfold classifyAction
    rw [if_neg (by rw [mem_basic_iff]; omega), if_neg (by rw [mem_mid_iff]; omega),
      if_pos hd]
    norm_num
  · unfold classifyAction
    rw [if_neg (by rw [mem_basic_iff]; omega), if_neg (by rw [mem_mid_iff]; omega),
      if_pos hd]
    norm_num
  · unfold classifyAction
    rw [if_neg (by rw [mem_basic_iff]; omega), if_neg (by rw [mem_mid_iff]; omega),
      if_pos hd]
    norm_num
  · unfold cancelSpinBonus
    norm_num
  · intro a c hac
    unfold cancelSpinBonus
    rw [if_neg fun h => hac h.2]

/-- Witness for C6 at distance 1 with no swaps left. -/
theorem C6_maximal_actions_witness :
    classifyAction 40 40 1 = .cancel ∧
    classifyAction 17 23 1 = .combine ∧
    classifyAction 23 17 1 = .combine ∧
    actionNewContents 40 40 .cancel = some (0, 0) ∧
    cancelSpinBonus 40 40 0 .cancel = 0 + 1 ∧
    (∀ a c : ℤ, a + c ≠ 80 → cancelSpinBonus a c 0 .cancel = 0) :=
  C6_maximal_actions 1 0 (by decide)

/-- C3: classifyAction produces the mirrored outcome under swapping the
two values and negating the distance, and the score delta handleAction
derives from the source tier is the same for the two mirrored calls. -/
theorem C3_classify_symmetry (a b d : ℤ) :
    classifyAction a b d = classifyAction b a (-d) ∧
    scoreDelta a (classifyAction a b d) = scoreDelta b (classifyAction b a (-d)) := by
  refine ⟨classify_swap a b d, ?_⟩
  rw [← classify_swap a b d]
  by_cases h : classifyAction a b d = .invalid
  · rw [h]; rfl
  · have hu := classify_u_eq a b d h
    have hx : ∀ x : Action, scoreDelta a x = scoreDelta b x := by
      intro x
      cases x <;> simp [scoreDelta, hu]
    exact hx _

/-- Negating the distance does not change the edge check, which only uses
the absolute distance. -/
lemma edge_neg (p q : ℤ × ℤ) (d : ℤ) :
    resolveEdgeError p q (-d) = resolveEdgeError p q d := by
  unfold resolveEdgeError
  rw [absJ_neg]

/-- C4: endGameCheck reports that a move exists (returns false) exactly
when some cell id 0..24 and some signed offset of action_dists give an
in-range neighbor whose triple passes resolveEdgeError and is classified
as an action; the scan is a short-circuiting List.any, mirroring the
early return of the source, and a full scan without witness yields true,
the branch on which the source fires endGameMenu. -/
theorem C4_endGameCheck_iff (b : Board) :
    endGameCheck b = false ↔
      ∃ i o : ℤ, 0 ≤ i ∧ i < 25 ∧ o ∈ action_dists ∧ 0 ≤ i + o ∧ i + o < 25 ∧
        resolveEdgeError (gridIndices i) (gridIndices (i + o)) o = true ∧
        classifyAction (b i) (b (i + o)) o ≠ .invalid := by
  unfold endGameCheck
  rw [Bool.not_eq_false', List.any_eq_true]
  constructor
  · rintro ⟨i, hi, hinner⟩
    rw [List.mem_range] at hi
    rw [List.any_eq_true] at hinner
    obtain ⟨n, hn, hcond⟩ := hinner
    rw [getNeighbors, List.mem_map] at hn
    obtain ⟨o, ho, rfl⟩ := hn
    rw [Bool.and_eq_true, decide_eq_true_eq] at hcond
    obtain ⟨⟨hn0, hn25⟩, hcc⟩ := hcond
    unfold canCombine at hcc
    rw [Bool.and_eq_true, Bool.and_eq_true, decide_eq_true_eq, decide_eq_true_eq] at hcc
    obtain ⟨⟨_, hedge⟩, hcls⟩ := hcc
    have hdist : (i : ℤ) - ((i : ℤ) + o) = -o := by ring
    rw [hdist, edge_neg] at hedge
    rw [hdist] at hcls
    refine ⟨(i : ℤ), o, by positivity, by exact_mod_cast hi, ho, hn0, hn25, hedge, ?_⟩
    intro hc
    exact hcls ((classify_invalid_neg _ _ o).mp hc)
  · rintro ⟨i, o, h0, h25, ho, hn0, hn25, hedge, hcls⟩
    refine ⟨i.toNat, by rw [List.mem_range]; omega, ?_⟩
    rw [List.any_eq_true]
    have hcast : (i.toNat : ℤ) = i := by omega
    refine ⟨i + o, ?_, ?_⟩
    · rw [getNeighbors, List.mem_map]
      exact ⟨o, ho, by rw [hcast]⟩
    · rw [Bool.and_eq_true, decide_eq_true_eq]
      refine ⟨⟨hn0, hn25⟩, ?_⟩
      unfold canCombine
      rw [Bool.and_eq_true, Bool.and_eq_true, decide_eq_true_eq, decide_eq_true_eq]
      rw [hcast]
      have hdist : i - (i + o) = -o := by ring
      rw [hdist, edge_neg]
      refine ⟨⟨⟨h0, hn0, by omega, by omega⟩, hedge⟩, ?_⟩
      intro hc
      exact hcls ((classify_invalid_neg _ _ o).mpr hc)

/-- C7: every invalid move input — drop outside the grid, a source or
destination column mid-settle, an offset rejected by resolveEdgeError, or
a value pair classifyAction maps to no action (which covers unrecognized
arrow values) — makes handleAction a total no-op: the whole game state,
board cells included, is returned unchanged. -/
theorem C7_invalid_inputs_noop (s : GameState) (origin x y : ℤ)
    (h :
      ¬(1 ≤ x ∧ x ≤ 299 ∧ 1 ≤ y ∧ y ≤ 299) ∨
      (x / 60 ∈ s.animating_columns ∨ origin % 5 ∈ s.animating_columns) ∨
      resolveEdgeError (gridIndices origin) (y / 60, x / 60)
        (gridId (y / 60) (x / 60) - origin) = false ∨
      classifyAction (s.board origin) (s.board (gridId (y / 60) (x / 60)))
        (gridId (y / 60) (x / 60) - origin) = .invalid) :
    handleAction s origin x y = s := by
  unfold handleAction
  split_ifs with h1 h2 h3
  · rfl
  · rfl
  · rcases h with h | h | h | h
    · exact absurd h1 h
    · exact absurd h h2
    · exact absurd h h3
    · rw [h]
      rfl
  · rfl

/-- Witness for C7: dropping at pixel (500, 500), outside the grid, on an
empty board changes nothing. -/
theorem C7_invalid_inputs_noop_witness :
    handleAction ⟨fun _ => 0, 0, 3, 0, []⟩ 0 500 500 = ⟨fun _ => 0, 0, 3, 0, []⟩ :=
  C7_invalid_inputs_noop ⟨fun _ => 0, 0, 3, 0, []⟩ 0 500 500 (by norm_num)

/-- C10: a call of handleAction never decreases the score: it leaves it
unchanged on any no-op, and otherwise adds exactly 2 for Merge,
2^(u+1) for Combine or 2^u + 2 for Cancel, where the tier score u of the
source value is always at least 2, so every applied action adds a
strictly positive amount.  (The gravity functions act on the board alone
and cannot touch the score.) -/
theorem C10_score_monotone (s : GameState) (origin x y : ℤ) :
    s.score ≤ (handleAction s origin x y).score ∧
    ((handleAction s origin x y).score = s.score ∨
     (handleAction s origin x y).score = s.score + 2 ∨
     (handleAction s origin x y).score = s.score + 2 ^ (uScore (s.board origin) + 1) ∨
     (handleAction s origin x y).score = s.score + (2 ^ uScore (s.board origin) + 2)) ∧
    2 ≤ uScore (s.board origin) := by
  have hu : 2 ≤ uScore (s.board origin) := by
    unfold uScore
    split_ifs <;> norm_num
  have hp1 : (0:ℤ) < 2 ^ (uScore (s.board origin) + 1) := pow_pos (by norm_num) _
  have hp2 : (0:ℤ) < 2 ^ uScore (s.board origin) := pow_pos (by norm_num) _
  refine ⟨?_, ?_, hu⟩ <;>
  · unfold handleAction
    split_ifs
    · omega
    · omega
    · cases hact : classifyAction (s.board origin)
          (s.board (gridId (y / 60) (x / 60))) (gridId (y / 60) (x / 60) - origin) <;>
        simp [actionNewContents, scoreDelta] <;>
        omega
    · omega

lemma gridId_row_iff (r r' j : ℤ) : gridId r j = gridId r' j ↔ r = r' := by
  unfold gridId; omega

lemma aag5 (b : Board) (i j : ℤ) : applyActionGravityAux 5 b i j =
    if i < 0 ∨ j < 0 ∨ 4 ≤ i ∨ 4 < j then b
    else if b (gridId i j) = 0 then b
    else applyActionGravityAux 4 (applyGravitySteps b i j) (i - 1) j := rfl

lemma aag4 (b : Board) (i j : ℤ) : applyActionGravityAux 4 b i j =
    if i < 0 ∨ j < 0 ∨ 4 ≤ i ∨ 4 < j then b
    else if b (gridId i j) = 0 then b
    else applyActionGravityAux 3 (applyGravitySteps b i j) (i - 1) j := rfl

lemma aag3 (b : Board) (i j : ℤ) : applyActionGravityAux 3 b i j =
    if i < 0 ∨ j < 0 ∨ 4 ≤ i ∨ 4 < j then b
    else if b (gridId i j) = 0 then b
    else applyActionGravityAux 2 (applyGravitySteps b i j) (i - 1) j := rfl

lemma aag2 (b : Board) (i j : ℤ) : applyActionGravityAux 2 b i j =
    if i < 0 ∨ j < 0 ∨ 4 ≤ i ∨ 4 < j then b
    else if b (gridId i j) = 0 then b
    else applyActionGravityAux 1 (applyGravitySteps b i j) (i - 1) j := rfl

lemma aag1 (b : Board) (i j : ℤ) : applyActionGravityAux 1 b i j =
    if i < 0 ∨ j < 0 ∨ 4 ≤ i ∨ 4 < j then b
    else if b (gridId i j) = 0 then b
    else applyActionGravityAux 0 (applyGravitySteps b i j) (i - 1) j := rfl

lemma aag0 (b : Board) (i j : ℤ) : applyActionGravityAux 0 b i j = b := rfl


/-- C8 counterexample: started at row 2 of the column [7, 0, 7, 0, 7]
(as after an action cleared row 3), applyActionGravity stops its upward
recursion at the empty row 1, leaving the arrow of row 0 floating above
an empty cell: the settling post-condition fails for this pre-state, so
it does not hold for every possible pre-state of a column. -/
theorem C8_counterexample : ¬ settledCol (applyActionGravity cexColumn 2 0) 0 := by
  intro hs
  exact hs 0 (by norm_num) (by norm_num) ⟨by decide, by decide⟩

set_option maxHeartbeats 4000000 in
/-- C8 (amended): the post-condition does hold for every pre-state the
move resolver can actually hand to applyActionGravity — a column in which
no arrow floats above a gap at or above the starting row (at or above the
start, every empty cell has only empty cells above it) and whose part
strictly below the starting row is already settled.  Then after
applyActionGravity has applied all its settle steps no cell of the column
holds an arrow with an empty cell directly beneath it. -/
theorem C8_gravity_settles (b : Board) (i0 j : ℤ)
    (hj0 : 0 ≤ j) (hj4 : j ≤ 4)
    (habove : ∀ t : ℤ, 0 ≤ t → t ≤ i0 → b (gridId t j) = 0 →
      ∀ s : ℤ, 0 ≤ s → s < t → b (gridId s j) = 0)
    (hbelow : ∀ t : ℤ, i0 < t → t < 4 → b (gridId t j) ≠ 0 → b (gridId (t + 1) j) ≠ 0) :
    settledCol (applyActionGravity b i0 j) j := by
  have hjn : ¬ (j < 0) := by omega
  have hj4x : ¬ (4 < j) := by omega
  by_cases hlow : i0 < 0
  · have hb : applyActionGravity b i0 j = b := by
      unfold applyActionGravity; rw [aag5, if_pos (Or.inl hlow)]
    rw [hb]
    rintro i hi0 hi4 ⟨hne, heq⟩
    exact hbelow i (by omega) (by omega) hne heq
  · by_cases hhigh : 4 ≤ i0
    · have hb : applyActionGravity b i0 j = b := by
        unfold applyActionGravity; rw [aag5, if_pos (Or.inr (Or.inr (Or.inl hhigh)))]
      rw [hb]
      rintro i hi0 hi4 ⟨hne, heq⟩
      exact hne (habove (i + 1) (by omega) (by omega) heq i (by omega) (by omega))
    · interval_cases i0 <;>
        rcases em (b (gridId 0 j) = 0) with e0 | e0 <;>
        rcases em (b (gridId 1 j) = 0) with e1 | e1 <;>
        rcases em (b (gridId 2 j) = 0) with e2 | e2 <;>
        rcases em (b (gridId 3 j) = 0) with e3 | e3 <;>
        rcases em (b (gridId 4 j) = 0) with e4 | e4 <;>
        first
          | exact absurd (habove 1 (by omega) (by omega) e1 0 (by omega) (by omega)) e0
          | exact absurd (habove 2 (by omega) (by omega) e2 0 (by omega) (by omega)) e0
          | exact absurd (habove 2 (by omega) (by omega) e2 1 (by omega) (by omega)) e1
          | exact absurd (habove 3 (by omega) (by omega) e3 0 (by omega) (by omega)) e0
          | exact absurd (habove 3 (by omega) (by omega) e3 1 (by omega) (by omega)) e1
          | exact absurd (habove 3 (by omega) (by omega) e3 2 (by omega) (by omega)) e2
          | exact ((hbelow 1 (by omega) (by omega) e1) (by exact e2)).elim
          | exact ((hbelow 2 (by omega) (by omega) e2) (by exact e3)).elim
          | exact ((hbelow 3 (by omega) (by omega) e3) (by exact e4)).elim
          | (unfold applyActionGravity settledCol
             intro i hi0 hi4
             interval_cases i <;>
               norm_num [aag5, aag4, aag3, aag2, aag1, aag0, applyGravitySteps,
                 can_be_dropped_to, cell_in_gravity_range, setCell, gridId_row_iff,
                 e0, e1, e2, e3, e4, hjn, hj4x, hj0, hj4])

/-- Witness for C8 (amended) at an in-game pre-state: the column
[0, 0, 7, 0, 5] of column 0 (row 3 just cleared by an action), settled
from row 2. -/
theorem C8_gravity_settles_witness :
    settledCol (applyActionGravity
      (fun n => if n = 10 then 7 else if n = 20 then 5 else 0) 2 0) 0 :=
  C8_gravity_settles _ 2 0 (by norm_num) (by norm_num)
    (by intro t ht0 ht2 hz s hs0 hst; norm_num [gridId]; omega)
    (by intro t ht2 ht4 hnz; norm_num [gridId] at *; omega)

/-- C9: when a vertical basic pair (1 over 5 dragged up, or 5 over 1
dragged down) at exactly natural distance 5 cancels, handleAction
schedules exactly one applyActionGravity pass for the shared column,
starting at the cell directly above the upper cleared cell, instead of
the two independent passes of the generic branch. -/
theorem C9_vertical_pair_single_gravity :
    (∀ origin ci cj : ℤ, 0 ≤ cj → cj < 5 → gridId ci cj = origin - 5 →
      classifyAction 1 5 (gridId ci cj - origin) = .cancel ∧
      actionNewContents 1 5 .cancel = some (0, 0) ∧
      gravityCalls 1 5 (gridId ci cj - origin) (gridIndices origin).1 (gridIndices origin).2
        ci cj 0 0 = [(ci - 1, cj)] ∧
      ci = (gridIndices origin).1 - 1 ∧ cj = (gridIndices origin).2) ∧
    (∀ origin ci cj : ℤ, 0 ≤ cj → cj < 5 → gridId ci cj = origin + 5 →
      classifyAction 5 1 (gridId ci cj - origin) = .cancel ∧
      actionNewContents 5 1 .cancel = some (0, 0) ∧
      gravityCalls 5 1 (gridId ci cj - origin) (gridIndices origin).1 (gridIndices origin).2
        ci cj 0 0 = [((gridIndices origin).1 - 1, (gridIndices origin).2)] ∧
      ci = (gridIndices origin).1 + 1 ∧ cj = (gridIndices origin).2) := by
  constructor
  · intro origin ci cj hcj0 hcj5 hrel
    have hdist : gridId ci cj - origin = -5 := by rw [hrel]; ring
    refine ⟨by rw [hdist]; decide, by decide, ?_, ?_, ?_⟩
    · unfold gravityCalls
      rw [if_pos ⟨rfl, rfl, hdist⟩]
    · unfold gridId at hrel
      unfold gridIndices
      omega
    · unfold gridId at hrel
      unfold gridIndices
      omega
  · intro origin ci cj hcj0 hcj5 hrel
    have hdist : gridId ci cj - origin = 5 := by rw [hrel]; ring
    refine ⟨by rw [hdist]; decide, by decide, ?_, ?_, ?_⟩
    · unfold gravityCalls
      rw [if_neg (by rw [hdist]; rintro ⟨h, -⟩; exact absurd h (by norm_num)),
        if_pos ⟨rfl, rfl, hdist⟩]
    · unfold gridId at hrel
      unfold gridIndices
      omega
    · unfold gridId at hrel
      unfold gridIndices
      omega

/-- Witness for C9: origin cell 5 with destination cell 0 for the upward
pair, origin cell 0 with destination cell 5 for the downward pair. -/
theorem C9_vertical_pair_single_gravity_witness :
    (classifyAction 1 5 (gridId 0 0 - 5) = .cancel ∧
     actionNewContents 1 5 .cancel = some (0, 0) ∧
     gravityCalls 1 5 (gridId 0 0 - 5) (gridIndices 5).1 (gridIndices 5).2 0 0 0 0 =
       [(0 - 1, 0)] ∧
     (0 : ℤ) = (gridIndices 5).1 - 1 ∧ (0 : ℤ) = (gridIndices 5).2) ∧
    (classifyAction 5 1 (gridId 1 0 - 0) = .cancel ∧
     actionNewContents 5 1 .cancel = some (0, 0) ∧
     gravityCalls 5 1 (gridId 1 0 - 0) (gridIndices 0).1 (gridIndices 0).2 1 0 0 0 =
       [((gridIndices 0).1 - 1, (gridIndices 0).2)] ∧
     (1 : ℤ) = (gridIndices 0).1 + 1 ∧ (0 : ℤ) = (gridIndices 0).2) :=
  ⟨C9_vertical_pair_single_gravity.1 5 0 0 (by norm_num) (by norm_num) (by norm_num [gridId]),
   C9_vertical_pair_single_gravity.2 0 1 0 (by norm_num) (by norm_num) (by norm_num [gridId])⟩

end ArrowGame
